import Mathlib

/-!
Verification of the grond bootstrap-ensemble harvesting engine and its
command-line layer.

The repository splits into three source files:
`src/apps/__main__.py` (the CLI commands, among them `command_harvest`,
`command_export` and `command_plot`), `src/optimizers/base.py` (the abstract
`Optimizer`) and `src/report/base.py` (report generation).  The statistical
core `grond.core.harvest` / `grond.core.export` is called from the CLI but
its source is not part of the repository snapshot; where a statement depends
on it, the corresponding definition is modelled from the specification
(sections 3, 4.2 and 4.3) and is marked as such in its doc comment.

Misfits are embedded as rational numbers; sample logs are lists of records,
a record holding the model parameter vector and the per-chain misfit vector
(index 0 = unweighted/global chain).
-/

namespace Grond

/-- Modelled from the spec: a persisted `SampleRecord` of the optimizer log —
the model parameter vector together with one scalar misfit per chain, misfit
index 0 being the unweighted (global) chain (spec section 3). -/
structure SampleRecord where
  model : List ℚ
  misfits : List ℚ

/-- Misfit of sample `i` of the log under chain `b` (0 = global chain). -/
def chainMisfit (log : List SampleRecord) (b i : Nat) : ℚ :=
  ((log.getD i ⟨[], []⟩).misfits).getD b 0

/-- Global (unweighted) misfit of sample `i`. -/
def globalMisfit (log : List SampleRecord) (i : Nat) : ℚ :=
  chainMisfit log 0 i

/-- Number of chains of a run: the length of the misfit vector, which the
spec fixes as `nbootstrap + 1` for the lifetime of a run (spec section 3). -/
def nchains (log : List SampleRecord) : Nat :=
  match log with
  | [] => 0
  | r :: _ => r.misfits.length

/-- Ranking order of samples within chain `b`: ascending misfit, ties broken
by the earlier sample index (spec section 5: deterministic tie-breaking). -/
def sampleLe (log : List SampleRecord) (b : Nat) (i j : Nat) : Bool :=
  decide (chainMisfit log b i < chainMisfit log b j ∨
    (chainMisfit log b i = chainMisfit log b j ∧ i ≤ j))

/-- Insert one index into an already ranked list of indices. -/
def insertRanked (le : Nat → Nat → Bool) (i : Nat) : List Nat → List Nat
  | [] => [i]
  | j :: rest => if le i j then i :: j :: rest else j :: insertRanked le i rest

/-- Insertion sort of sample indices under a ranking order. -/
def rankSamples (le : Nat → Nat → Bool) : List Nat → List Nat
  | [] => []
  | i :: rest => insertRanked le i (rankSamples le rest)

/-- Modelled from the spec: the best-of-`nbest` selection of chain `b`,
recomputed from the full log (spec section 4.2: the per-chain misfit ranking
is re-derived by scanning the persisted log). -/
def bestIndices (log : List SampleRecord) (nbest b : Nat) : List Nat :=
  (rankSamples (sampleLe log b) (List.range log.length)).take nbest

/-- The bootstrap chain ids: every chain id except the global chain 0. -/
def bootstrapChainIds (log : List SampleRecord) : List Nat :=
  (List.range (nchains log)).filter (fun b => decide (1 ≤ b))

/-- Global misfits of the `nbest` best samples of every bootstrap chain
(the global chain excluded), pooled into one list (spec section 4.2,
weed level 1). -/
def pooledMisfits (log : List SampleRecord) (nbest : Nat) : List ℚ :=
  ((bootstrapChainIds log).map
    (fun b => (bestIndices log nbest b).map (globalMisfit log))).flatten

/-- Arithmetic mean of a list of rationals (0 for the empty list). -/
def listMean (xs : List ℚ) : ℚ :=
  xs.sum / (xs.length : ℚ)

/-- Population variance of a list of rationals. -/
def listVar (xs : List ℚ) : ℚ :=
  ((xs.map (fun x => (x - listMean xs) ^ 2)).sum) / (xs.length : ℚ)

/-- Pooled average global misfit used by the weeding policy. -/
def pooledMean (log : List SampleRecord) (nbest : Nat) : ℚ :=
  listMean (pooledMisfits log nbest)

/-- Pooled variance of the global misfit; its square root is the pooled
standard deviation of the weeding policy. -/
def pooledVar (log : List SampleRecord) (nbest : Nat) : ℚ :=
  listVar (pooledMisfits log nbest)

/-- Exact rational test for `x < m + sqrt v`: either `x` is already below
the mean `m`, or its excess over the mean squares to less than the
variance `v`.  `belowAvgPlusStd_iff` proves this equal to the real
inequality against `m + Real.sqrt v`. -/
def belowAvgPlusStd (x m v : ℚ) : Bool :=
  decide (x < m) || decide ((x - m) ^ 2 < v)

/-- Modelled from the spec: weed level 1 chain retention — a bootstrap chain
is retained iff the global misfit of all its `nbest` best samples stays
below the pooled average plus one pooled standard deviation
(spec section 4.2). -/
def chainRetained (log : List SampleRecord) (nbest b : Nat) : Bool :=
  (bestIndices log nbest b).all (fun i =>
    belowAvgPlusStd (globalMisfit log i) (pooledMean log nbest) (pooledVar log nbest))

/-- The bootstrap chains surviving weed level 1 chain weeding. -/
def retainedBootstrapChains (log : List SampleRecord) (nbest : Nat) : List Nat :=
  (bootstrapChainIds log).filter (chainRetained log nbest)

/-- Modelled from the spec: weed level 2 sample weeding — inside a retained
chain, a sample survives iff its global misfit does not exceed the pooled
average (no standard-deviation margin; spec section 4.2). -/
def weedSamples (log : List SampleRecord) (nbest : Nat) (sel : List Nat) : List Nat :=
  sel.filter (fun i => decide (globalMisfit log i ≤ pooledMean log nbest))

/-- Modelled from the spec: `grond.core.harvest` is not part of the source
snapshot (only its CLI caller `command_harvest` is); the harvest ensemble —
a per-chain selection of surviving sample indices — is modelled from spec
sections 4.2 and 3.  Weed levels: 0 no weeding, 1 chain weeding, 2 chain
plus sample weeding, 3 global chain only. -/
def harvest (log : List SampleRecord) (nbest weed : Nat) : List (Nat × List Nat) :=
  match weed with
  | 0 => (List.range (nchains log)).map (fun b => (b, bestIndices log nbest b))
  | 1 => (0, bestIndices log nbest 0) ::
      (retainedBootstrapChains log nbest).map (fun b => (b, bestIndices log nbest b))
  | 2 => (0, weedSamples log nbest (bestIndices log nbest 0)) ::
      (retainedBootstrapChains log nbest).map
        (fun b => (b, weedSamples log nbest (bestIndices log nbest b)))
  | 3 => [(0, bestIndices log nbest 0)]
  | _ + 4 => []

/-- Total number of samples retained by a harvest ensemble. -/
def totalRetained (ens : List (Nat × List Nat)) : Nat :=
  (ens.map (fun e => e.2.length)).sum

/-- A log is well formed when every record carries at least one misfit
(the misfit vector has length `nbootstrap + 1 ≥ 1`, spec section 3). -/
def logWellFormed (log : List SampleRecord) : Bool :=
  log.all (fun r => decide (1 ≤ r.misfits.length))

/-- The export kinds accepted by command_export (apps/__main__.py
line 604). -/
def whatChoices : List String := ["best", "mean", "ensemble", "stats"]

/-- Python repr of a string: the text wrapped in single quotes. -/
def pyRepr (s : String) : String := "\x27" ++ s ++ "\x27"

/-- The invalid-choice message of command_export (apps/__main__.py
lines 606-610). -/
def invalidChoiceMsg (what : String) : String :=
  "invalid choice: " ++ pyRepr what ++ " (choose from " ++
    String.intercalate (", ") (whatChoices.map pyRepr) ++ ")"

/-- Outcome of the export subcommand dispatch: either help_and_die with a
usage message, or the call into grond.export. -/
inductive ExportCmdResult where
  | usageError (msg : String)
  | invokes (what : String) (dirnames : List String) (pnames : Option (List String))
deriving DecidableEq

/-- The --parameters option of command_export: a comma-separated list;
empty or missing means no restriction (apps/__main__.py lines 612-615). -/
def parsePnames (parameters : Option String) : Option (List String) :=
  match parameters with
  | some p => if p = "" then none else some (p.splitOn (","))
  | none => none

/-- command_export argument handling (apps/__main__.py lines 596-626):
fewer than two positional arguments is a usage error, the first argument
must be one of the four export kinds, and only then is grond.export
invoked. -/
def commandExport (args : List String) (parameters : Option String) : ExportCmdResult :=
  if args.length < 2 then ExportCmdResult.usageError ("arguments required")
  else
    match args with
    | [] => ExportCmdResult.usageError ("arguments required")
    | what :: dirnames =>
      if what ∈ whatChoices then
        ExportCmdResult.invokes what dirnames (parsePnames parameters)
      else ExportCmdResult.usageError (invalidChoiceMsg what)

/-- The options of the harvest subcommand (apps/__main__.py lines 457-476):
--force defaults to off, --neach to 10, --weed to 0. -/
structure HarvestOptions where
  force : Bool := false
  neach : Int := 10
  weed : Int := 0
deriving DecidableEq

/-- Outcome of the harvest subcommand dispatch. -/
inductive HarvestCmdResult where
  | usageError (msg : String)
  | invokes (runPath : String) (force : Bool) (nbest : Int) (weed : Int)
deriving DecidableEq

/-- command_harvest argument handling (apps/__main__.py lines 478-487):
exactly one rundir argument is required; the run path and the three options
are handed to grond.harvest unchanged. -/
def commandHarvest (opts : HarvestOptions) (args : List String) : HarvestCmdResult :=
  match args with
  | [runPath] => HarvestCmdResult.invokes runPath opts.force opts.neach opts.weed
  | _ => HarvestCmdResult.usageError ("no rundir")

/-- Abstract run-directory inputs of a harvest invocation: the sample log
(absent or present) and whether a prior harvest output already exists. -/
structure HarvestInput where
  log : Option (List SampleRecord)
  priorOutputExists : Bool
  force : Bool

/-- The two routine harvest error conditions of spec section 4.2. -/
inductive HarvestError where
  | noData
  | forceRequired
deriving DecidableEq

/-- The sample log is empty or absent. -/
def HarvestInput.logEmptyOrAbsent (inp : HarvestInput) : Bool :=
  match inp.log with
  | none => true
  | some l => l.isEmpty

/-- Modelled from the spec: the guarded entry point of `grond.core.harvest`
(not under the source snapshot; spec section 4.2): an existing harvest
output without force is refused, an empty or absent log is refused, and
only otherwise is an ensemble produced. -/
def runHarvest (inp : HarvestInput) (nbest weed : Nat) :
    Except HarvestError (List (Nat × List Nat)) :=
  if inp.priorOutputExists && !inp.force then Except.error HarvestError.forceRequired
  else
    match inp.log with
    | none => Except.error HarvestError.noData
    | some l =>
      if l.isEmpty then Except.error HarvestError.noData
      else Except.ok (harvest l nbest weed)

/-- Modelled from the spec: the per-parameter ExportStats record of spec
section 3 — eight scalar measures for each parameter. -/
structure StatsRecord where
  best : ℚ
  mean : ℚ
  std : ℚ
  minimum : ℚ
  percentile16 : ℚ
  median : ℚ
  percentile84 : ℚ
  maximum : ℚ

/-- The stats record as a name-to-value view, in presentation order. -/
def StatsRecord.measures (r : StatsRecord) : List (String × ℚ) :=
  [("best", r.best), ("mean", r.mean), ("std", r.std), ("minimum", r.minimum),
    ("percentile16", r.percentile16), ("median", r.median),
    ("percentile84", r.percentile84), ("maximum", r.maximum)]

/-- Look up one measure of the stats record by name. -/
def StatsRecord.measure (r : StatsRecord) (name : String) : Option ℚ :=
  ((r.measures).find? (fun p => p.1 == name)).map Prod.snd

/-- The measures offered by the --parameters option of command_export
(apps/__main__.py lines 584-590). -/
def availableMeasures : List String :=
  ["best", "mean", "std", "minimum", "percentile16", "median",
    "percentile84", "maximum"]

/-- A Python exception reaching the CLI layer: grond.GrondError (carrying
str(e)) or any other exception. -/
inductive PyExc where
  | grondError (msg : String)
  | otherExc (msg : String)
deriving DecidableEq

/-- How a CLI command ends: sys.exit via die, normal completion, or an
exception escaping as an unhandled traceback. -/
inductive CmdOutcome where
  | exited (msg : String)
  | completed
  | unhandled (exc : PyExc)
deriving DecidableEq

/-- True when the outcome is an uncaught exception traceback. -/
def CmdOutcome.isUnhandled : CmdOutcome → Bool
  | CmdOutcome.unhandled _ => true
  | _ => false

/-- die (apps/__main__.py lines 154-158): sys.exit with the message behind
the grond error prelude; a nonempty second argument follows on its own
line. -/
def dieMessage (message err : String) : String :=
  if err = "" then "grond: error: " ++ message
  else "grond: error: " ++ message ++ " \n " ++ err

/-- command_export result handling (apps/__main__.py lines 617-626): the
grond.export call is wrapped in try/except grond.GrondError, which exits
via die(str(e)). -/
def commandExportGuard (result : Except PyExc Unit) : CmdOutcome :=
  match result with
  | Except.ok _ => CmdOutcome.completed
  | Except.error (PyExc.grondError m) => CmdOutcome.exited (dieMessage m (""))
  | Except.error e => CmdOutcome.unhandled e

/-- command_plot result handling (apps/__main__.py lines 541-547): the same
guard around plot.plot_result. -/
def commandPlotGuard (result : Except PyExc Unit) : CmdOutcome :=
  match result with
  | Except.ok _ => CmdOutcome.completed
  | Except.error (PyExc.grondError m) => CmdOutcome.exited (dieMessage m (""))
  | Except.error e => CmdOutcome.unhandled e

/-- The Python values reaching the abstract members of optimizers/base.py
lines 15-22: the NotImplemented singleton, the NotImplementedError class,
and exception instances. -/
inductive PyVal where
  | notImplementedSingleton
  | notImplementedErrorClass
  | excInstance (cls : String)
deriving DecidableEq

/-- A raised Python exception: a TypeError produced by the runtime itself,
or an instance of an exception class. -/
inductive PyRaised where
  | typeError (msg : String)
  | raisedExc (cls : String)
deriving DecidableEq

/-- The exception class a raise event surfaces as. -/
def PyRaised.excClass : PyRaised → String
  | PyRaised.typeError _ => "TypeError"
  | PyRaised.raisedExc cls => cls

/-- Whether the raised exception is a TypeError. -/
def PyRaised.isTypeError : PyRaised → Bool
  | PyRaised.typeError _ => true
  | PyRaised.raisedExc _ => false

/-- The Python type name of a value. -/
def PyVal.typeName : PyVal → String
  | PyVal.notImplementedSingleton => "NotImplementedType"
  | PyVal.notImplementedErrorClass => "type"
  | PyVal.excInstance cls => cls

/-- Python call semantics restricted to these values: calling an exception
class constructs an instance; calling the non-callable NotImplemented
singleton (or an instance) raises TypeError. -/
def pyCall : PyVal → Except PyRaised PyVal
  | PyVal.notImplementedErrorClass => Except.ok (PyVal.excInstance ("NotImplementedError"))
  | v => Except.error (PyRaised.typeError (pyRepr v.typeName ++ " object is not callable"))

/-- Python raise-statement semantics: if evaluating the raised expression
itself raises, that exception propagates; raising an exception instance
surfaces that instance; raising a non-exception is itself a TypeError. -/
def pyRaiseStmt (e : Except PyRaised PyVal) : PyRaised :=
  match e with
  | Except.error r => r
  | Except.ok (PyVal.excInstance cls) => PyRaised.raisedExc cls
  | Except.ok _ => PyRaised.typeError ("exceptions must derive from BaseException")

/-- optimizers/base.py lines 17-18: Optimizer.optimize executes
raise NotImplemented(). -/
def optimizerOptimize : PyRaised :=
  pyRaiseStmt (pyCall PyVal.notImplementedSingleton)

/-- optimizers/base.py lines 20-22: the niterations property executes
raise NotImplementedError(). -/
def optimizerNiterations : PyRaised :=
  pyRaiseStmt (pyCall PyVal.notImplementedErrorClass)

/-- The filesystem state relevant to report/base.py: the report directory
(absent, or present with a list of written entries), the rebuilt report
index, and the rebuilt archive. -/
structure ReportFS where
  reportDir : Option (List String)
  indexBuilt : Bool
  archiveBuilt : Bool
deriving DecidableEq

/-- shutil.rmtree of the report directory. -/
def rmtreeReportDir (fs : ReportFS) : ReportFS :=
  { fs with reportDir := none }

/-- report_index (report/base.py lines 155-176), abstracted to the index
artifact it rebuilds under the reports base path. -/
def rebuildIndex (fs : ReportFS) : ReportFS :=
  { fs with indexBuilt := true }

/-- report_archive (report/base.py lines 179-188), abstracted to the
archive it rebuilds. -/
def rebuildArchive (fs : ReportFS) : ReportFS :=
  { fs with archiveBuilt := true }

/-- report/base.py lines 86-87: a pre-existing report directory is removed
up front unless update_without_plotting is set. -/
def clearPreexisting (updateWithoutPlotting : Bool) (fs : ReportFS) : ReportFS :=
  if fs.reportDir.isSome && !updateWithoutPlotting then rmtreeReportDir fs else fs

/-- Outcome of the report function: the final filesystem state and the
exception, if any, propagated to the caller. -/
structure ReportOutcome where
  fs : ReportFS
  propagated : Option String
deriving DecidableEq

/-- report (report/base.py lines 68-152).  The body of the try block —
problem info, event dump, exports, plots and the index entry — is the
`generate` parameter: it transforms the filesystem and either finishes or
raises.  On an exception the incomplete report directory is removed
(lines 143-149) and no exception escapes; the index and archive are rebuilt
in either case (lines 151-152). -/
def report (generate : ReportFS → ReportFS × Option String)
    (updateWithoutPlotting : Bool) (fs0 : ReportFS) : ReportOutcome :=
  let fs1 := clearPreexisting updateWithoutPlotting fs0
  match generate fs1 with
  | (fs2, none) =>
    { fs := rebuildArchive (rebuildIndex fs2), propagated := none }
  | (fs2, some _) =>
    let fs3 := if fs2.reportDir.isSome then rmtreeReportDir fs2 else fs2
    { fs := rebuildArchive (rebuildIndex fs3), propagated := none }

/-- The rational threshold test agrees with the real inequality against
`pooled average + 1 · pooled standard deviation`. -/
theorem belowAvgPlusStd_iff (x m v : ℚ) :
    belowAvgPlusStd x m v = true ↔ ((x : ℝ) < (m : ℝ) + Real.sqrt (v : ℝ)) := by
  unfold belowAvgPlusStd
  simp only [Bool.or_eq_true, decide_eq_true_eq]
  constructor
  · rintro (h | h)
    · have hx : (x : ℝ) < (m : ℝ) := by exact_mod_cast h
      have hs : (0 : ℝ) ≤ Real.sqrt (v : ℝ) := Real.sqrt_nonneg _
      linarith
    · have h2 : ((x : ℝ) - (m : ℝ)) ^ 2 < (v : ℝ) := by exact_mod_cast h
      have h3 : (x : ℝ) - (m : ℝ) < Real.sqrt (v : ℝ) := Real.lt_sqrt_of_sq_lt h2
      linarith
  · intro h
    rcases lt_or_le x m with hlt | hge
    · exact Or.inl hlt
    · right
      have hge2 : (m : ℝ) ≤ (x : ℝ) := by exact_mod_cast hge
      have hge3 : (0 : ℝ) ≤ (x : ℝ) - (m : ℝ) := by linarith
      have hlt2 : (x : ℝ) - (m : ℝ) < Real.sqrt (v : ℝ) := by linarith
      have h2 : ((x : ℝ) - (m : ℝ)) ^ 2 < (v : ℝ) := (Real.lt_sqrt hge3).mp hlt2
      exact_mod_cast h2

/-- Sums of natural numbers only grow along sublists. -/
theorem natSum_le_of_sublist {l1 l2 : List Nat} (h : l1.Sublist l2) : l1.sum ≤ l2.sum := by
  induction h with
  | slnil => simp
  | cons a h ih => simp only [List.sum_cons]; omega
  | cons₂ a h ih => simp only [List.sum_cons]; omega

/-- A keyed lookup in an association list succeeds exactly for the keys. -/
theorem find?_key_isSome {α : Type} (l : List (String × α)) (name : String) :
    ((l.find? (fun p => p.1 == name)).isSome = true) ↔ name ∈ l.map Prod.fst := by
  induction l with
  | nil => simp
  | cons a l ih =>
    rw [List.find?_cons]
    by_cases h : a.1 = name
    · simp [h]
    · have hb : (a.1 == name) = false := by simpa using h
      have hne : ¬ name = a.1 := fun hc => h hc.symm
      simp [hb, ih, hne]

/-- Claim C1: at weed level 1, a chain-selection pair belongs to the harvest
ensemble exactly when it is the always-retained global chain with its
best-`nbest` selection, or a bootstrap chain retained in full because the
global misfit of all of its `nbest` best samples lies below the pooled
average plus one pooled standard deviation; every other bootstrap chain is
dropped entirely. -/
theorem harvest_weed1_retention (log : List SampleRecord) (nbest b : Nat) (sel : List Nat) :
    (b, sel) ∈ harvest log nbest 1 ↔
      ((b = 0 ∧ sel = bestIndices log nbest 0) ∨
        (1 ≤ b ∧ b < nchains log ∧ sel = bestIndices log nbest b ∧
          ∀ i ∈ bestIndices log nbest b,
            ((globalMisfit log i : ℝ) <
              (pooledMean log nbest : ℝ) + Real.sqrt ((pooledVar log nbest : ℝ))))) := by
  constructor
  · intro hmem
    rcases List.mem_cons.mp hmem with heq | hmem2
    · exact Or.inl ⟨congrArg Prod.fst heq, congrArg Prod.snd heq⟩
    · rcases List.mem_map.mp hmem2 with ⟨a, haret, heq⟩
      have hb : a = b := congrArg Prod.fst heq
      have hsel : bestIndices log nbest a = sel := congrArg Prod.snd heq
      subst hb
      rcases List.mem_filter.mp haret with ⟨hrange1, hret⟩
      rcases List.mem_filter.mp hrange1 with ⟨hrange, hone⟩
      refine Or.inr ⟨of_decide_eq_true hone, List.mem_range.mp hrange, hsel.symm, ?_⟩
      intro i hi
      have hall := List.all_eq_true.mp hret i hi
      exact (belowAvgPlusStd_iff _ _ _).mp hall
  · rintro (⟨hb, hsel⟩ | ⟨hb1, hb2, hsel, hall⟩)
    · subst hb; subst hsel; exact List.mem_cons_self _ _
    · subst hsel
      refine List.mem_cons_of_mem _ (List.mem_map.mpr ⟨b, ?_, rfl⟩)
      refine List.mem_filter.mpr
        ⟨List.mem_filter.mpr ⟨List.mem_range.mpr hb2, decide_eq_true hb1⟩, ?_⟩
      exact List.all_eq_true.mpr (fun i hi => (belowAvgPlusStd_iff _ _ _).mpr (hall i hi))

/-- Claim C1, instantiated: the global chain with its best selection is a
member of a concrete weed-1 harvest ensemble. -/
theorem harvest_weed1_retention_witness :
    ((0 : Nat), bestIndices [(⟨[0], [1, 2]⟩ : SampleRecord)] 2 0) ∈
      harvest [(⟨[0], [1, 2]⟩ : SampleRecord)] 2 1 :=
  (harvest_weed1_retention [⟨[0], [1, 2]⟩] 2 0 (bestIndices [⟨[0], [1, 2]⟩] 2 0)).mpr
    (Or.inl ⟨rfl, rfl⟩)

/-- Claim C2: harvesting is deterministic and idempotent — with identical
inputs over an unchanged log, two invocations produce identical ensembles
for every weed level 0 to 3; the result is a function of the log, `nbest`
and `weed` alone (the embedding carries no scan order, seed or clock). -/
theorem harvest_deterministic (log log2 : List SampleRecord) (nbest weed : Nat)
    (hlog : log = log2) (_hweed : weed ≤ 3) :
    harvest log nbest weed = harvest log2 nbest weed := by
  subst hlog
  rfl

/-- Claim C2, instantiated at a concrete log, `nbest` 10 and weed level 1. -/
theorem harvest_deterministic_witness :
    [(⟨[0], [1, 2]⟩ : SampleRecord)] = [(⟨[0], [1, 2]⟩ : SampleRecord)] ∧ (1 : Nat) ≤ 3 ∧
      harvest [(⟨[0], [1, 2]⟩ : SampleRecord)] 10 1 =
        harvest [(⟨[0], [1, 2]⟩ : SampleRecord)] 10 1 :=
  ⟨rfl, by decide, harvest_deterministic [⟨[0], [1, 2]⟩] [⟨[0], [1, 2]⟩] 10 1 rfl (by decide)⟩

/-- Claim C3: for a fixed log and `nbest`, the total sample count retained
at weed level 2 is at most that of level 1, which is at most that of
level 0; and the level-3 ensemble is exactly the global chain with its
best-`nbest` selection, all bootstrap chains excluded. -/
theorem harvest_weed_monotonicity (log : List SampleRecord) (nbest : Nat)
    (H : logWellFormed log = true) :
    totalRetained (harvest log nbest 2) ≤ totalRetained (harvest log nbest 1) ∧
    totalRetained (harvest log nbest 1) ≤ totalRetained (harvest log nbest 0) ∧
    harvest log nbest 3 = [(0, bestIndices log nbest 0)] := by
  refine ⟨?_, ?_, rfl⟩
  · simp only [totalRetained, harvest, List.map_cons, List.sum_cons, List.map_map]
    refine Nat.add_le_add (List.length_filter_le _ _) (List.sum_le_sum ?_)
    intro b hb
    simp only [Function.comp]
    exact List.length_filter_le _ _
  · simp only [totalRetained, harvest, List.map_cons, List.sum_cons, List.map_map]
    cases log with
    | nil =>
      simp [bestIndices, rankSamples, retainedBootstrapChains, bootstrapChainIds, nchains]
    | cons r rest =>
      have hmem := List.all_eq_true.mp H r (List.mem_cons_self r rest)
      have hn : 1 ≤ nchains (r :: rest) := by
        simpa [nchains] using of_decide_eq_true hmem
      obtain ⟨k, hk⟩ : ∃ k, nchains (r :: rest) = k + 1 := ⟨nchains (r :: rest) - 1, by omega⟩
      rw [hk, List.range_succ_eq_map, List.map_cons, List.sum_cons]
      refine Nat.add_le_add_left ?_ _
      have hbs : bootstrapChainIds (r :: rest) = (List.range k).map Nat.succ := by
        rw [bootstrapChainIds, hk, List.range_succ_eq_map]
        rw [show (List.filter (fun b => decide (1 ≤ b)) (0 :: (List.range k).map Nat.succ)) =
            List.filter (fun b => decide (1 ≤ b)) ((List.range k).map Nat.succ) from rfl]
        refine List.filter_eq_self.mpr ?_
        intro a ha
        rcases List.mem_map.mp ha with ⟨x, hx, hax⟩
        subst hax
        exact decide_eq_true (Nat.succ_le_succ (Nat.zero_le x))
      calc ((retainedBootstrapChains (r :: rest) nbest).map
              (fun b => (bestIndices (r :: rest) nbest b).length)).sum
          ≤ ((bootstrapChainIds (r :: rest)).map
              (fun b => (bestIndices (r :: rest) nbest b).length)).sum :=
            natSum_le_of_sublist (List.Sublist.map _ (List.filter_sublist _))
        _ = (((List.range k).map Nat.succ).map
              (fun b => (bestIndices (r :: rest) nbest b).length)).sum := by rw [hbs]

/-- Claim C3, instantiated at a concrete one-record log with two chains. -/
theorem harvest_weed_monotonicity_witness :
    logWellFormed [(⟨[0], [1, 2]⟩ : SampleRecord)] = true ∧
      (totalRetained (harvest [(⟨[0], [1, 2]⟩ : SampleRecord)] 1 2) ≤
          totalRetained (harvest [(⟨[0], [1, 2]⟩ : SampleRecord)] 1 1) ∧
        totalRetained (harvest [(⟨[0], [1, 2]⟩ : SampleRecord)] 1 1) ≤
          totalRetained (harvest [(⟨[0], [1, 2]⟩ : SampleRecord)] 1 0) ∧
        harvest [(⟨[0], [1, 2]⟩ : SampleRecord)] 1 3 =
          [(0, bestIndices [(⟨[0], [1, 2]⟩ : SampleRecord)] 1 0)]) :=
  ⟨by decide, harvest_weed_monotonicity [⟨[0], [1, 2]⟩] 1 (by decide)⟩

/-- Claim C4: the export command accepts exactly the four kinds best, mean,
ensemble and stats — grond.export is invoked exactly when the first
argument is one of these and at least one rundir follows; any other first
argument makes the command fail with the invalid-choice usage error and
grond.export is never invoked. -/
theorem export_kind_validation (what : String) (dirnames : List String) (ps : Option String) :
    whatChoices = ["best", "mean", "ensemble", "stats"] ∧
    ((∃ w d p, commandExport (what :: dirnames) ps = ExportCmdResult.invokes w d p) ↔
      (what ∈ whatChoices ∧ dirnames ≠ [])) ∧
    (what ∉ whatChoices → dirnames ≠ [] →
      commandExport (what :: dirnames) ps = ExportCmdResult.usageError (invalidChoiceMsg what)) := by
  refine ⟨rfl, ?_, ?_⟩
  · constructor
    · rintro ⟨w, d, p, hinv⟩
      by_cases hlen : (what :: dirnames).length < 2
      · rw [commandExport, if_pos hlen] at hinv
        cases hinv
      · have hd : dirnames ≠ [] := by
          intro hnil
          subst hnil
          simp at hlen
        refine ⟨?_, hd⟩
        by_cases hmem : what ∈ whatChoices
        · exact hmem
        · rw [commandExport, if_neg hlen] at hinv
          rw [if_neg hmem] at hinv
          cases hinv
    · rintro ⟨hmem, hd⟩
      have hlen : ¬ (what :: dirnames).length < 2 := by
        cases dirnames with
        | nil => exact absurd rfl hd
        | cons a l => simp
      refine ⟨what, dirnames, parsePnames ps, ?_⟩
      rw [commandExport, if_neg hlen, if_pos hmem]
  · intro hmem hd
    have hlen : ¬ (what :: dirnames).length < 2 := by
      cases dirnames with
      | nil => exact absurd rfl hd
      | cons a l => simp
    rw [commandExport, if_neg hlen, if_neg hmem]

/-- Claim C4, instantiated: the kind "median" is rejected with the
invalid-choice usage error. -/
theorem export_kind_validation_witness :
    ("median" : String) ∉ whatChoices ∧ (["run1"] : List String) ≠ [] ∧
      commandExport ["median", "run1"] none =
        ExportCmdResult.usageError (invalidChoiceMsg ("median")) := by
  have hmem : ("median" : String) ∉ whatChoices := by decide
  have hd : (["run1"] : List String) ≠ [] := by decide
  exact ⟨hmem, hd, (export_kind_validation ("median") ["run1"] none).2.2 hmem hd⟩

/-- Claim C5: the harvest command consumes the flags force (default off),
neach (default 10) and weed (default 0); with exactly one rundir argument
it passes the run path, force, nbest and weed to grond.harvest unchanged,
and with any other argument count it fails with the no-rundir usage
error. -/
theorem harvest_cli_contract (opts : HarvestOptions) (args : List String) :
    (({} : HarvestOptions).force = false ∧ ({} : HarvestOptions).neach = 10 ∧
      ({} : HarvestOptions).weed = 0) ∧
    (∀ runPath : String, commandHarvest opts [runPath] =
      HarvestCmdResult.invokes runPath opts.force opts.neach opts.weed) ∧
    (args.length ≠ 1 → commandHarvest opts args = HarvestCmdResult.usageError ("no rundir")) := by
  refine ⟨⟨rfl, rfl, rfl⟩, fun runPath => rfl, ?_⟩
  intro hlen
  match args with
  | [] => rfl
  | [a] => exact absurd rfl hlen
  | a :: b :: rest => rfl

/-- Claim C5, instantiated at the default options and an empty argument
list. -/
theorem harvest_cli_contract_witness :
    (([] : List String).length ≠ 1) ∧
      ((({} : HarvestOptions).force = false ∧ ({} : HarvestOptions).neach = 10 ∧
        ({} : HarvestOptions).weed = 0) ∧
      (∀ runPath : String, commandHarvest {} [runPath] =
        HarvestCmdResult.invokes runPath ({} : HarvestOptions).force
          ({} : HarvestOptions).neach ({} : HarvestOptions).weed) ∧
      (([] : List String).length ≠ 1 →
        commandHarvest {} [] = HarvestCmdResult.usageError ("no rundir"))) :=
  ⟨by decide, harvest_cli_contract {} []⟩

/-- Claim C6: harvesting fails with the force-required condition whenever a
prior harvest output exists and force was not requested, fails with the
no-data condition whenever the log is empty or absent (and no overwrite
refusal precedes it), and produces an ensemble only when neither condition
holds — so no partial output is ever produced in an error case. -/
theorem harvest_error_conditions (inp : HarvestInput) (nbest weed : Nat) :
    (inp.priorOutputExists = true → inp.force = false →
      runHarvest inp nbest weed = Except.error HarvestError.forceRequired) ∧
    (inp.logEmptyOrAbsent = true → (inp.priorOutputExists = false ∨ inp.force = true) →
      runHarvest inp nbest weed = Except.error HarvestError.noData) ∧
    (∀ out, runHarvest inp nbest weed = Except.ok out →
      inp.logEmptyOrAbsent = false ∧ (inp.priorOutputExists = false ∨ inp.force = true)) := by
  obtain ⟨lg, prior, force⟩ := inp
  refine ⟨?_, ?_, ?_⟩
  · intro hp hf
    subst hp
    subst hf
    rfl
  · intro hempty hfree
    have hcond : (prior && !force) = false := by
      rcases hfree with h | h
      · subst h; rfl
      · subst h; simp
    rw [runHarvest]
    rw [hcond]
    simp only [Bool.false_eq_true, if_false]
    match lg, hempty with
    | none, _ => rfl
    | some l, hempty =>
      have : l.isEmpty = true := by simpa [HarvestInput.logEmptyOrAbsent] using hempty
      simp [this]
  · intro out hok
    cases hcond : (prior && !force) with
    | true =>
      rw [runHarvest] at hok
      simp [hcond] at hok
    | false =>
      have hfree : prior = false ∨ force = true := by
        cases prior with
        | false => exact Or.inl rfl
        | true =>
          cases force with
          | true => exact Or.inr rfl
          | false => simp at hcond
      refine ⟨?_, hfree⟩
      rw [runHarvest] at hok
      simp only [hcond, Bool.false_eq_true, if_false] at hok
      match lg, hok with
      | some l, hok =>
        simp only [HarvestInput.logEmptyOrAbsent]
        by_cases he : l.isEmpty = true
        · simp [he] at hok
        · simpa using he
      | none, hok => simp at hok

/-- Claim C6, instantiated: a present but empty log yields the no-data
error. -/
theorem harvest_error_conditions_witness :
    HarvestInput.logEmptyOrAbsent ⟨some [], false, false⟩ = true ∧
      runHarvest ⟨some [], false, false⟩ 10 0 = Except.error HarvestError.noData :=
  ⟨rfl, (harvest_error_conditions ⟨some [], false, false⟩ 10 0).2.1 rfl (Or.inl rfl)⟩

/-- Claim C7: the stats record exposes, for every parameter, exactly the
eight measures best, mean, std, minimum, percentile16, median, percentile84
and maximum — the very names the --parameters interface of the export
command offers; looking up a measure succeeds exactly for these names. -/
theorem stats_measures_exact (r : StatsRecord) (name : String) :
    (r.measures.map Prod.fst = availableMeasures) ∧
    ((r.measure name).isSome = true ↔ name ∈ availableMeasures) := by
  refine ⟨rfl, ?_⟩
  rw [StatsRecord.measure, Option.isSome_map']
  rw [find?_key_isSome]
  rw [show (StatsRecord.measures r).map Prod.fst = availableMeasures from rfl]

/-- Claim C7, instantiated at the zero stats record and the measure name
median. -/
theorem stats_measures_exact_witness :
    ((⟨0, 0, 0, 0, 0, 0, 0, 0⟩ : StatsRecord).measures.map Prod.fst = availableMeasures) ∧
      (((⟨0, 0, 0, 0, 0, 0, 0, 0⟩ : StatsRecord).measure ("median")).isSome = true ↔
        ("median" : String) ∈ availableMeasures) :=
  stats_measures_exact ⟨0, 0, 0, 0, 0, 0, 0, 0⟩ ("median")

/-- Claim C8: a GrondError raised by the export or plot operation surfaces
as a die termination whose message is the grond error prelude followed by
the error text, and never as an unhandled exception traceback. -/
theorem grond_error_surfacing (m : String) :
    commandExportGuard (Except.error (PyExc.grondError m)) =
      CmdOutcome.exited ("grond: error: " ++ m) ∧
    commandPlotGuard (Except.error (PyExc.grondError m)) =
      CmdOutcome.exited ("grond: error: " ++ m) ∧
    (commandExportGuard (Except.error (PyExc.grondError m))).isUnhandled = false ∧
    (commandPlotGuard (Except.error (PyExc.grondError m))).isUnhandled = false := by
  refine ⟨?_, ?_, rfl, rfl⟩ <;>
    simp [commandExportGuard, commandPlotGuard, dieMessage]

/-- Claim C8, instantiated at the error text boom. -/
theorem grond_error_surfacing_witness :
    commandExportGuard (Except.error (PyExc.grondError ("boom"))) =
      CmdOutcome.exited ("grond: error: " ++ "boom") ∧
    commandPlotGuard (Except.error (PyExc.grondError ("boom"))) =
      CmdOutcome.exited ("grond: error: " ++ "boom") ∧
    (commandExportGuard (Except.error (PyExc.grondError ("boom")))).isUnhandled = false ∧
    (commandPlotGuard (Except.error (PyExc.grondError ("boom")))).isUnhandled = false :=
  grond_error_surfacing ("boom")

/-- Claim C9: on the abstract Optimizer, optimize fails with a TypeError —
raise NotImplemented() calls the non-callable NotImplemented singleton —
while reading niterations raises NotImplementedError; the two abstract
members therefore fail with different exception types. -/
theorem optimizer_abstract_member_exceptions :
    optimizerOptimize =
      PyRaised.typeError (pyRepr ("NotImplementedType") ++ " object is not callable") ∧
    optimizerNiterations = PyRaised.raisedExc ("NotImplementedError") ∧
    optimizerOptimize.excClass = "TypeError" ∧
    optimizerNiterations.excClass = "NotImplementedError" ∧
    optimizerOptimize.isTypeError = true ∧
    optimizerNiterations.isTypeError = false :=
  ⟨rfl, rfl, rfl, rfl, rfl, rfl⟩

/-- Claim C10: when any exception is raised during report generation, the
report function removes the whole incomplete report directory, propagates
nothing to its caller, and still rebuilds the report index and archive. -/
theorem report_exception_cleanup (generate : ReportFS → ReportFS × Option String)
    (u : Bool) (fs0 fs2 : ReportFS) (e : String)
    (hgen : generate (clearPreexisting u fs0) = (fs2, some e)) :
    (report generate u fs0).fs.reportDir = none ∧
    (report generate u fs0).propagated = none ∧
    (report generate u fs0).fs.indexBuilt = true ∧
    (report generate u fs0).fs.archiveBuilt = true := by
  rw [report]
  rw [hgen]
  by_cases h : fs2.reportDir.isSome
  · simp [h, rebuildArchive, rebuildIndex, rmtreeReportDir]
  · have h2 : fs2.reportDir = none := Option.not_isSome_iff_eq_none.mp (by simpa using h)
    simp [h, rebuildArchive, rebuildIndex, h2]

/-- Claim C10, instantiated at a generation step that writes a partial
report directory and then raises. -/
theorem report_exception_cleanup_witness :
    ((fun fs => ({ fs with reportDir := some ["plots"] }, some "boom"))
        (clearPreexisting false ⟨none, false, false⟩) =
      (({ reportDir := some ["plots"], indexBuilt := false, archiveBuilt := false } : ReportFS),
        some "boom")) ∧
    ((report (fun fs => ({ fs with reportDir := some ["plots"] }, some "boom"))
        false ⟨none, false, false⟩).fs.reportDir = none ∧
      (report (fun fs => ({ fs with reportDir := some ["plots"] }, some "boom"))
        false ⟨none, false, false⟩).propagated = none ∧
      (report (fun fs => ({ fs with reportDir := some ["plots"] }, some "boom"))
        false ⟨none, false, false⟩).fs.indexBuilt = true ∧
      (report (fun fs => ({ fs with reportDir := some ["plots"] }, some "boom"))
        false ⟨none, false, false⟩).fs.archiveBuilt = true) :=
  ⟨rfl, report_exception_cleanup _ false ⟨none, false, false⟩
    { reportDir := some ["plots"], indexBuilt := false, archiveBuilt := false } "boom" rfl⟩

end Grond
